import Mathlib

/-!
# NotTorBrowser: the Tor controller window

A shallow embedding of the class `MainWindow` of `src/mainwindow.cpp` and
`src/mainwindow.h`.  The window is a record of the member variables that the
slots read and write; every slot is a function from window to window.  What a
slot asks of the outside world (the clock, the file system, the child process)
is answered by an `Env` record passed to it, and what it does to the outside
world (message boxes, calls on the `QProcess`, files written and removed) is
appended to effect lists kept in the window record.

Slots that Qt runs in answer to a signal (`readTorOutput`, `handleTorFinished`)
are transitions of their own.
-/

namespace NotTorBrowser

/-! ## QString operations -/

/-- Qt `QChar::isSpace`: the ASCII characters 9 to 13 and 32, U+0085, U+00A0 and the
characters of the Unicode separator categories Zs, Zl and Zp. -/
def isSpace (c : Char) : Bool :=
  let u := c.toNat
  u == 0x20 || (0x09 ≤ u && u ≤ 0x0d) || u == 0x85 || u == 0xa0 || u == 0x1680 ||
  (0x2000 ≤ u && u ≤ 0x200a) || u == 0x2028 || u == 0x2029 || u == 0x202f ||
  u == 0x205f || u == 0x3000

/-- Qt `QString::trimmed`: the string without the white space at its start and end. -/
def trimmed (s : String) : String :=
  ⟨((s.data.dropWhile isSpace).reverse.dropWhile isSpace).reverse⟩

/-- Qt `QString::isEmpty`: the string has no characters. -/
def isEmpty (s : String) : Bool :=
  s.data.isEmpty

/-- Search for `pat` as a contiguous run of characters of the text, trying every start
position from left to right. -/
def containsChars : List Char → List Char → Bool
  | [], pat => pat.isEmpty
  | c :: cs, pat => pat.isPrefixOf (c :: cs) || containsChars cs pat

/-- Qt `QString::contains` with the default `Qt::CaseSensitive`. -/
def contains (text pat : String) : Bool :=
  containsChars text.data pat.data

/-- Qt `QTextStream::readLine` on a fresh stream over a device opened with
`QIODevice::Text`: text mode drops the carriage returns, and the line is what stands
before the first line feed (everything, when there is none). -/
def readLine (content : String) : String :=
  ⟨(content.data.filter (fun c => c != '\r')).takeWhile (fun c => c != '\n')⟩

/-! ## QIntValidator -/

/-- Qt `QValidator::State`. -/
inductive ValidatorState where
  | Invalid
  | Intermediate
  | Acceptable
deriving DecidableEq, Repr

/-- Value of a run of decimal digits, most significant first. -/
def digitsValue (ds : List Char) : Nat :=
  ds.foldl (fun acc c => 10 * acc + (c.toNat - 48)) 0

/-- Number of decimal digits of the top of the range, 1 for 0 (`log10(qAbs(t)) + 1`). -/
def topLength (top : Int) : Nat :=
  if top = 0 then 1 else (Nat.toDigits 10 top.natAbs).length

/-- Qt `QIntValidator::validate` for a range `bottom .. top`, for input made of ASCII
digits with an optional leading sign (anything else is `Invalid` here; the group
separators a locale may allow are left out).  The empty input and a lone sign are
`Intermediate`; a value inside the range is `Acceptable`; a value outside it is
`Invalid` only when it has more digits than `top` or has a sign the range excludes,
and `Intermediate` otherwise. -/
def QIntValidator.validate (bottom top : Int) (input : String) : ValidatorState :=
  match input.data with
  | [] => .Intermediate
  | c :: rest =>
    let startsWithMinus := c == '-'
    let startsWithPlus := c == '+'
    let digits := if startsWithMinus || startsWithPlus then rest else c :: rest
    if !digits.all Char.isDigit then .Invalid
    else if decide (0 ≤ bottom) && startsWithMinus then .Invalid
    else if decide (top < 0) && startsWithPlus then .Invalid
    else if digits.isEmpty then .Intermediate
    else if 2 ^ 63 ≤ digitsValue digits then .Invalid
    else
      let entered : Int := if startsWithMinus then -(digitsValue digits : Int) else digitsValue digits
      if bottom ≤ entered ∧ entered ≤ top then .Acceptable
      else if 0 ≤ entered then
        if top < entered ∧ -entered < bottom ∧ topLength top < digits.length then .Invalid
        else .Intermediate
      else if entered < bottom then .Invalid
      else .Intermediate

/-! ## QFile -/

/-- Open mode of a `QFile` as `startTor` and `readTorOutput` use it. -/
inductive OpenMode where
  | NotOpen
  | ReadOnly
  | WriteOnly
deriving DecidableEq, Repr

/-- A `QFile` object: the name it was constructed with and its open mode. -/
structure QFile where
  fileName : String
  openMode : OpenMode
deriving DecidableEq, Repr

/-- Qt `QIODevice::readAll`: the data of a device that is open for reading (`stored` is
what the file holds), and the empty byte array when the device is not open for
reading. -/
def QFile.readAll (f : QFile) (stored : String) : String :=
  match f.openMode with
  | .ReadOnly => stored
  | _ => ""

/-! ## Widgets, effects and the window -/

/-- A `QLineEdit` the user types into: its text and whether it is enabled. -/
structure QLineEdit where
  text : String
  enabled : Bool
deriving DecidableEq, Repr

/-- A `QLabel`: its text and its style sheet. -/
structure QLabel where
  text : String
  styleSheet : String
deriving DecidableEq, Repr

/-- The two kinds of blocking dialog the window raises. -/
inductive Icon where
  | Warning
  | Critical
deriving DecidableEq, Repr

/-- A blocking `QMessageBox` raised by the window. -/
structure MessageBox where
  icon : Icon
  title : String
  text : String
deriving DecidableEq, Repr

/-- A call on the `QProcess` that changes the child process. -/
inductive ProcessCall where
  | start (program : String) (arguments : List String)
  | terminate
  | kill
deriving DecidableEq, Repr

/-- A change the window makes to the file system. -/
inductive FileEffect where
  | write (path : String) (text : String)
  | remove (path : String)
deriving DecidableEq, Repr

/-- Qt `QProcess::ExitStatus`. -/
inductive ExitStatus where
  | NormalExit
  | CrashExit
deriving DecidableEq, Repr

/-- Answers of the outside world during one slot. -/
structure Env where
  /-- Result of `QDir::currentPath()`. -/
  currentPath : String
  /-- Result of `QDateTime::currentDateTime().toString()`. -/
  currentDateTime : String
  /-- Result of `QFileInfo::exists`. -/
  fileExists : String → Bool
  /-- Whether `QFile::open(WriteOnly | Text)` succeeds on a path. -/
  openWrite : String → Bool
  /-- Content of a path when `QFile::open(ReadOnly | Text)` succeeds, `none` when not. -/
  openRead : String → Option String
  /-- Result of `QProcess::waitForStarted()`. -/
  waitForStarted : Bool
  /-- Result of `QProcess::waitForFinished(3000)`. -/
  waitForFinished : Bool

/-- The member variables of `MainWindow` (`torProcess` is allocated once by `setupUI` and
never reassigned, so it is never null afterwards; the field records the calls made on
it), followed by the effects on the outside world. -/
structure MainWindow where
  isTorRunning : Bool
  statusLabel : QLabel
  toggleButton : String
  socksPortInput : QLineEdit
  hiddenServiceDirInput : QLineEdit
  hiddenServicePortInput : QLineEdit
  logView : List String
  hostnameDisplay : String
  torProcess : List ProcessCall
  messageBoxes : List MessageBox
  fileEffects : List FileEffect
deriving DecidableEq, Repr

/-- The window after the constructor: `setupUI` with `isTorRunning = false` from the
header; `appData` is `QStandardPaths::writableLocation(AppDataLocation)`. -/
def setupUI (appData : String) : MainWindow where
  isTorRunning := false
  statusLabel := ⟨"Tor Status: Stopped", "font-weight: bold; font-size: 16px; color: red;"⟩
  toggleButton := "Start Tor"
  socksPortInput := ⟨"9050", true⟩
  hiddenServiceDirInput := ⟨appData ++ "/hidden_service", true⟩
  hiddenServicePortInput := ⟨"80 127.0.0.1:5000", true⟩
  logView := []
  hostnameDisplay := ""
  torProcess := []
  messageBoxes := []
  fileEffects := []

/-- Slot `updateUI`. -/
def updateUI (w : MainWindow) : MainWindow :=
  if w.isTorRunning then
    { w with
      statusLabel := ⟨"Tor Status: RUNNING", "color: green; font-weight: bold; font-size: 16px;"⟩
      toggleButton := "Stop Tor"
      socksPortInput := { w.socksPortInput with enabled := false }
      hiddenServiceDirInput := { w.hiddenServiceDirInput with enabled := false }
      hiddenServicePortInput := { w.hiddenServicePortInput with enabled := false } }
  else
    { w with
      statusLabel := ⟨"Tor Status: STOPPED", "color: red; font-weight: bold; font-size: 16px;"⟩
      toggleButton := "Start Tor"
      socksPortInput := { w.socksPortInput with enabled := true }
      hiddenServiceDirInput := { w.hiddenServiceDirInput with enabled := true }
      hiddenServicePortInput := { w.hiddenServicePortInput with enabled := true } }

/-- Raise a `QMessageBox::warning`. -/
def warning (w : MainWindow) (title text : String) : MainWindow :=
  { w with messageBoxes := w.messageBoxes ++ [⟨.Warning, title, text⟩] }

/-- Raise a `QMessageBox::critical`. -/
def critical (w : MainWindow) (title text : String) : MainWindow :=
  { w with messageBoxes := w.messageBoxes ++ [⟨.Critical, title, text⟩] }

/-- The call `logView->append`: one more entry at the end of the log. -/
def append (w : MainWindow) (entry : String) : MainWindow :=
  { w with logView := w.logView ++ [entry] }

/-- Function `validateInputs`: the result and the window with the dialog it raised. -/
def validateInputs (w : MainWindow) : Bool × MainWindow :=
  if isEmpty w.socksPortInput.text then
    (false, warning w "Error" "Please enter Socks port number")
  else if isEmpty w.hiddenServiceDirInput.text then
    (false, warning w "Error" "Please enter Hidden Service directory")
  else if isEmpty w.hiddenServicePortInput.text then
    (false, warning w "Error" "Please enter Hidden Service port mapping")
  else
    (true, w)

/-- What `startTor` sends through the `QTextStream` over the configuration file, as text
(the device is opened with `QIODevice::Text`, so how a line feed is stored is the
platform's business). -/
def torrcStream (w : MainWindow) : String :=
  "SocksPort " ++ w.socksPortInput.text ++ "\n"
    ++ "Log notice stdout\n"
    ++ "AvoidDiskWrites 1\n"
    ++ ("HiddenServiceDir " ++ w.hiddenServiceDirInput.text ++ "\n")
    ++ ("HiddenServicePort " ++ w.hiddenServicePortInput.text ++ "\n")

/-- Function `startTor`. -/
def startTor (e : Env) (w : MainWindow) : MainWindow :=
  let torPath := e.currentPath ++ "/tor/tor.exe"
  let configPath := e.currentPath ++ "/torrc.txt"
  if !e.fileExists torPath then
    critical (append w ("[ERROR] Tor executable not found at: " ++ torPath))
      "Error" "Tor executable not found!"
  else
    let configFile : QFile := ⟨configPath, .NotOpen⟩
    if !e.openWrite configPath then
      critical (append w "[ERROR] Failed to create config file")
        "Error" "Cannot create configuration file!"
    else
      let configFile := { configFile with openMode := .WriteOnly }
      let out := torrcStream w
      -- configFile.close(): the stream is flushed into the file, the device is closed
      let w := { w with fileEffects := w.fileEffects ++ [FileEffect.write configFile.fileName out] }
      let configFile := { configFile with openMode := .NotOpen }
      let w := append w ("[" ++ e.currentDateTime ++ "] Starting Tor...")
      let w := append w ("Config file content:\n" ++ configFile.readAll out)
      let w := { w with torProcess := w.torProcess ++ [ProcessCall.start torPath ["-f", configPath]] }
      if !e.waitForStarted then
        critical (append w "[ERROR] Failed to start Tor process")
          "Error" "Failed to start Tor process!"
      else
        updateUI { w with isTorRunning := true }

/-- Function `stopTor`. -/
def stopTor (e : Env) (w : MainWindow) : MainWindow :=
  if w.isTorRunning then
    let w := append w ("[" ++ e.currentDateTime ++ "] Stopping Tor...")
    let w := { w with torProcess := w.torProcess ++ [ProcessCall.terminate] }
    let w :=
      if !e.waitForFinished then
        append { w with torProcess := w.torProcess ++ [ProcessCall.kill] }
          "[WARNING] Tor process was forcibly killed"
      else w
    let w := updateUI { w with isTorRunning := false }
    let w := append w ("[" ++ e.currentDateTime ++ "] Tor stopped")
    let w := { w with fileEffects := w.fileEffects ++ [FileEffect.remove (e.currentPath ++ "/torrc.txt")] }
    { w with hostnameDisplay := "" }
  else w

/-- Function `closeEvent`. -/
def closeEvent (e : Env) (w : MainWindow) : MainWindow :=
  stopTor e w

/-- Slot `toggleServer`. -/
def toggleServer (e : Env) (w : MainWindow) : MainWindow :=
  if w.isTorRunning then
    stopTor e w
  else
    let r := validateInputs w
    if r.1 then startTor e r.2 else r.2

/-- Slot `readTorOutput`; `text` is the decoded output of the child process. -/
def readTorOutput (e : Env) (text : String) (w : MainWindow) : MainWindow :=
  let w := append w (trimmed text)
  if contains text "Done" then
    let hostnameFile := w.hiddenServiceDirInput.text ++ "/hostname"
    match e.openRead hostnameFile with
    | some content =>
      let onionAddress := trimmed (readLine content)
      if !isEmpty onionAddress then
        append { w with hostnameDisplay := onionAddress }
          ("[INFO] Retrieved .onion address from file: " ++ onionAddress)
      else w
    | none => w
  else w

/-- Slot `handleTorFinished`. -/
def handleTorFinished (exitCode : Int) (exitStatus : ExitStatus) (w : MainWindow) : MainWindow :=
  let w :=
    match exitStatus with
    | .CrashExit => append w "[ERROR] Tor process crashed!"
    | .NormalExit => append w ("[INFO] Tor process exited with code " ++ toString exitCode)
  updateUI { w with isTorRunning := false }

/-! ## The window as a transition system -/

/-- The user types into the port field: the text changes when the field is enabled and
the `QIntValidator(1024, 65535)` installed by `setupUI` does not call it `Invalid`. -/
def editSocksPort (t : String) (w : MainWindow) : MainWindow :=
  if w.socksPortInput.enabled && QIntValidator.validate 1024 65535 t != .Invalid then
    { w with socksPortInput := { w.socksPortInput with text := t } }
  else w

/-- The user types into the service-directory field. -/
def editHiddenServiceDir (t : String) (w : MainWindow) : MainWindow :=
  if w.hiddenServiceDirInput.enabled then
    { w with hiddenServiceDirInput := { w.hiddenServiceDirInput with text := t } }
  else w

/-- The user types into the port-mapping field. -/
def editHiddenServicePort (t : String) (w : MainWindow) : MainWindow :=
  if w.hiddenServicePortInput.enabled then
    { w with hiddenServicePortInput := { w.hiddenServicePortInput with text := t } }
  else w

/-- What can happen to the window. -/
inductive Event where
  | toggleServer
  | stopTor
  | readTorOutput (text : String)
  | handleTorFinished (exitCode : Int) (exitStatus : ExitStatus)
  | closeEvent
  | editSocksPort (t : String)
  | editHiddenServiceDir (t : String)
  | editHiddenServicePort (t : String)

/-- One transition of the window. -/
def step (e : Env) (ev : Event) (w : MainWindow) : MainWindow :=
  match ev with
  | .toggleServer => toggleServer e w
  | .stopTor => stopTor e w
  | .readTorOutput text => readTorOutput e text w
  | .handleTorFinished exitCode exitStatus => handleTorFinished exitCode exitStatus w
  | .closeEvent => closeEvent e w
  | .editSocksPort t => editSocksPort t w
  | .editHiddenServiceDir t => editHiddenServiceDir t w
  | .editHiddenServicePort t => editHiddenServicePort t w

/-- The windows reachable from the constructed window. -/
inductive Reachable : MainWindow → Prop where
  | init (appData : String) : Reachable (setupUI appData)
  | step (e : Env) (ev : Event) (w : MainWindow) : Reachable w → Reachable (step e ev w)

/-! ## Sample inputs -/

/-- An environment in which the executable exists, the configuration file opens, the
child process starts and stops in time, and the file `/tmp/hs/hostname` holds one
address. -/
def sampleEnv : Env where
  currentPath := "C:/NotTorBrowser"
  currentDateTime := "Fri Oct 30 05:12:00 2026"
  fileExists := fun _ => true
  openWrite := fun _ => true
  openRead := fun p => if p = "/tmp/hs/hostname" then some "abc123.onion\n" else none
  waitForStarted := true
  waitForFinished := true

/-- An environment like `sampleEnv` in which no file exists. -/
def bareEnv : Env :=
  { sampleEnv with fileExists := fun _ => false }

/-- The constructed window after the user has typed `/tmp/hs` as service directory. -/
def sampleWindow : MainWindow :=
  editHiddenServiceDir "/tmp/hs" (setupUI "C:/Users/u/AppData/Roaming/NotTorBrowser")

/-- The sample window after a successful start. -/
def runningWindow : MainWindow :=
  toggleServer sampleEnv sampleWindow

/-- The running sample window after the child process has printed `Done.`. -/
def addressWindow : MainWindow :=
  readTorOutput sampleEnv "Done." runningWindow

/-- The sample window after the user has typed `80` into the port field. -/
def lowPortWindow : MainWindow :=
  editSocksPort "80" sampleWindow

/-- A log entry of the form `[<time>] Stopping Tor...`, the first entry `stopTor`
appends for a running session. -/
def isStoppingEntry (entry : String) : Bool :=
  "] Stopping Tor...".data.isSuffixOf entry.data

/-- The three configuration fields are enabled exactly when the running flag is off. -/
def FieldsFollowFlag (w : MainWindow) : Prop :=
  w.socksPortInput.enabled = !w.isTorRunning ∧
  w.hiddenServiceDirInput.enabled = !w.isTorRunning ∧
  w.hiddenServicePortInput.enabled = !w.isTorRunning

/-! ## Lemmas -/

theorem isEmpty_iff (s : String) : isEmpty s = true ↔ s = "" := by
  unfold isEmpty
  constructor
  · intro h
    exact String.ext (by simpa using h)
  · rintro rfl
    rfl

theorem isEmpty_eq_false_iff (s : String) : isEmpty s = false ↔ s ≠ "" := by
  have h := isEmpty_iff s
  cases hs : isEmpty s
  · simp only [true_iff]
    intro hne
    rw [h.mpr hne] at hs
    exact Bool.noConfusion hs
  · simp only [Bool.true_eq_false, false_iff, not_not]
    exact h.mp hs

theorem containsChars_iff (t pat : List Char) : containsChars t pat = true ↔ pat <:+: t := by
  induction t with
  | nil => simp [containsChars]
  | cons c cs ih => simp [containsChars, ih, List.infix_cons_iff]

theorem contains_iff (text pat : String) : contains text pat = true ↔ pat.data <:+: text.data :=
  containsChars_iff text.data pat.data

theorem updateUI_isTorRunning (w : MainWindow) : (updateUI w).isTorRunning = w.isTorRunning := by
  unfold updateUI
  split <;> rfl

theorem updateUI_enabled (w : MainWindow) :
    (updateUI w).socksPortInput.enabled = !w.isTorRunning ∧
    (updateUI w).hiddenServiceDirInput.enabled = !w.isTorRunning ∧
    (updateUI w).hiddenServicePortInput.enabled = !w.isTorRunning := by
  unfold updateUI
  split <;> simp_all

theorem stopTor_of_stopped (e : Env) (w : MainWindow) (h : w.isTorRunning = false) :
    stopTor e w = w := by
  simp [stopTor, h]

theorem stopTor_isTorRunning (e : Env) (w : MainWindow) : (stopTor e w).isTorRunning = false := by
  unfold stopTor
  split
  · simp [append, updateUI_isTorRunning]
  · simp_all

theorem readTorOutput_isTorRunning (e : Env) (text : String) (w : MainWindow) :
    (readTorOutput e text w).isTorRunning = w.isTorRunning := by
  unfold readTorOutput
  simp only [append]
  split
  · split
    · split <;> rfl
    · rfl
  · rfl

theorem isStoppingEntry_stopped (x : String) :
    isStoppingEntry (x ++ "] Tor stopped") = false := by
  have h1 : "] Tor stopped".data.reverse = 'd' :: "] Tor stoppe".data.reverse := by decide
  have h2 : "] Stopping Tor...".data.reverse = '.' :: "] Stopping Tor..".data.reverse := by decide
  unfold isStoppingEntry
  rw [List.isSuffixOf, String.data_append, List.reverse_append, h1, h2]
  simp [List.isPrefixOf]

theorem stopTor_logView (e : Env) (w : MainWindow) (h : w.isTorRunning = true) :
    (stopTor e w).logView = w.logView ++
      (("[" ++ e.currentDateTime ++ "] Stopping Tor...") ::
        ((if e.waitForFinished then [] else ["[WARNING] Tor process was forcibly killed"]) ++
          ["[" ++ e.currentDateTime ++ "] Tor stopped"])) := by
  unfold stopTor
  cases hw : e.waitForFinished <;> simp [h, append, updateUI]

theorem startTor_logView (e : Env) (w : MainWindow)
    (hexe : e.fileExists (e.currentPath ++ "/tor/tor.exe") = true)
    (hopen : e.openWrite (e.currentPath ++ "/torrc.txt") = true) :
    (startTor e w).logView = w.logView ++
      (["[" ++ e.currentDateTime ++ "] Starting Tor...", "Config file content:\n"] ++
        (if e.waitForStarted then [] else ["[ERROR] Failed to start Tor process"])) := by
  have hread : ∀ stored : String,
      QFile.readAll ⟨e.currentPath ++ "/torrc.txt", OpenMode.NotOpen⟩ stored = "" := fun _ => rfl
  unfold startTor
  simp only [hexe, hopen, Bool.not_true, Bool.false_eq_true, if_false]
  cases e.waitForStarted <;> simp [critical, append, updateUI, hread]

theorem validateInputs_fields (w : MainWindow) :
    (validateInputs w).2.isTorRunning = w.isTorRunning ∧
    (validateInputs w).2.socksPortInput = w.socksPortInput ∧
    (validateInputs w).2.hiddenServiceDirInput = w.hiddenServiceDirInput ∧
    (validateInputs w).2.hiddenServicePortInput = w.hiddenServicePortInput := by
  unfold validateInputs
  split
  · exact ⟨rfl, rfl, rfl, rfl⟩
  · split
    · exact ⟨rfl, rfl, rfl, rfl⟩
    · split <;> exact ⟨rfl, rfl, rfl, rfl⟩

theorem updateUI_follows (w : MainWindow) : FieldsFollowFlag (updateUI w) := by
  unfold FieldsFollowFlag
  rw [updateUI_isTorRunning]
  exact updateUI_enabled w

theorem stopTor_follows (e : Env) (w : MainWindow) (h : FieldsFollowFlag w) :
    FieldsFollowFlag (stopTor e w) := by
  unfold stopTor
  split
  · cases hw : e.waitForFinished <;> simp [FieldsFollowFlag, append, updateUI]
  · exact h

theorem startTor_follows (e : Env) (w : MainWindow) (h : FieldsFollowFlag w) :
    FieldsFollowFlag (startTor e w) := by
  unfold startTor
  cases h1 : e.fileExists (e.currentPath ++ "/tor/tor.exe") <;>
    cases h2 : e.openWrite (e.currentPath ++ "/torrc.txt") <;>
    cases h3 : e.waitForStarted <;>
    simp_all [FieldsFollowFlag, append, critical, updateUI]

theorem toggleServer_follows (e : Env) (w : MainWindow) (h : FieldsFollowFlag w) :
    FieldsFollowFlag (toggleServer e w) := by
  have hv : FieldsFollowFlag (validateInputs w).2 := by
    obtain ⟨h1, h2, h3, h4⟩ := validateInputs_fields w
    unfold FieldsFollowFlag
    rw [h1, h2, h3, h4]
    exact h
  unfold toggleServer
  split
  · exact stopTor_follows e w h
  · simp only
    split
    · exact startTor_follows e _ hv
    · exact hv

theorem readTorOutput_follows (e : Env) (text : String) (w : MainWindow)
    (h : FieldsFollowFlag w) : FieldsFollowFlag (readTorOutput e text w) := by
  unfold readTorOutput
  simp only [append]
  split
  · split
    · split <;> exact h
    · exact h
  · exact h

theorem handleTorFinished_follows (exitCode : Int) (exitStatus : ExitStatus) (w : MainWindow) :
    FieldsFollowFlag (handleTorFinished exitCode exitStatus w) := by
  unfold handleTorFinished
  exact updateUI_follows _

theorem step_follows (e : Env) (ev : Event) (w : MainWindow) (h : FieldsFollowFlag w) :
    FieldsFollowFlag (step e ev w) := by
  cases ev with
  | toggleServer => exact toggleServer_follows e w h
  | stopTor => exact stopTor_follows e w h
  | readTorOutput text => exact readTorOutput_follows e text w h
  | handleTorFinished exitCode exitStatus => exact handleTorFinished_follows exitCode exitStatus w
  | closeEvent => exact stopTor_follows e w h
  | editSocksPort t =>
    simp only [step, editSocksPort]
    split <;> exact h
  | editHiddenServiceDir t =>
    simp only [step, editHiddenServiceDir]
    split <;> exact h
  | editHiddenServicePort t =>
    simp only [step, editHiddenServicePort]
    split <;> exact h

/-! ## The claims -/

/-- C1: when the executable exists and the configuration file opens for writing,
`startTor` writes to `<cwd>/torrc.txt` exactly the five lines `SocksPort p`,
`Log notice stdout`, `AvoidDiskWrites 1`, `HiddenServiceDir d`, `HiddenServicePort m`, in
that order, each followed by a line feed, where p, d and m are the texts of the three
fields; for the texts `9050`, `/tmp/hs` and `80 127.0.0.1:5000` this is the literal text
of the second part. -/
theorem startTor_writes_torrc (e : Env) (w : MainWindow)
    (hexe : e.fileExists (e.currentPath ++ "/tor/tor.exe") = true)
    (hopen : e.openWrite (e.currentPath ++ "/torrc.txt") = true) :
    (startTor e w).fileEffects = w.fileEffects ++
      [FileEffect.write (e.currentPath ++ "/torrc.txt")
        (String.join (List.map (fun l => l ++ "\n")
          ["SocksPort " ++ w.socksPortInput.text,
           "Log notice stdout",
           "AvoidDiskWrites 1",
           "HiddenServiceDir " ++ w.hiddenServiceDirInput.text,
           "HiddenServicePort " ++ w.hiddenServicePortInput.text]))] ∧
    (w.socksPortInput.text = "9050" → w.hiddenServiceDirInput.text = "/tmp/hs" →
      w.hiddenServicePortInput.text = "80 127.0.0.1:5000" →
      (startTor e w).fileEffects = w.fileEffects ++
        [FileEffect.write (e.currentPath ++ "/torrc.txt")
          "SocksPort 9050\nLog notice stdout\nAvoidDiskWrites 1\nHiddenServiceDir /tmp/hs\nHiddenServicePort 80 127.0.0.1:5000\n"]) := by
  have key : (startTor e w).fileEffects = w.fileEffects ++
      [FileEffect.write (e.currentPath ++ "/torrc.txt") (torrcStream w)] := by
    unfold startTor
    simp only [hexe, hopen, Bool.not_true, Bool.false_eq_true, if_false]
    cases e.waitForStarted <;> simp [critical, append, updateUI]
  refine ⟨?_, ?_⟩
  · rw [key]
    simp [torrcStream, String.join, String.append_assoc]
  · intro hp hd hm
    rw [key]
    simp only [torrcStream, hp, hd, hm]
    rfl

/-- Witness of C1 on the sample window. -/
theorem startTor_writes_torrc_witness :
    sampleEnv.fileExists (sampleEnv.currentPath ++ "/tor/tor.exe") = true ∧
    sampleEnv.openWrite (sampleEnv.currentPath ++ "/torrc.txt") = true ∧
    (startTor sampleEnv sampleWindow).fileEffects =
      [FileEffect.write "C:/NotTorBrowser/torrc.txt"
        "SocksPort 9050\nLog notice stdout\nAvoidDiskWrites 1\nHiddenServiceDir /tmp/hs\nHiddenServicePort 80 127.0.0.1:5000\n"] :=
  ⟨rfl, rfl, (startTor_writes_torrc sampleEnv sampleWindow rfl rfl).2 rfl rfl rfl⟩

/-- C2: in a running session a chunk without the substring `Done` leaves the displayed
address as it was; a chunk with `Done`, read while `<service-dir>/hostname` opens and its
first line trims to a non-empty `a`, sets the displayed address to `a`; a `stopTor` after
it empties the address.  With the chunks `not done yet` and `Done.` and a hostname file
holding `abc123.onion` and a line feed, the address is `abc123.onion` after both chunks and
empty after the stop. -/
theorem readTorOutput_address (e e2 e3 : Env) (w : MainWindow) (text : String)
    (hrun : w.isTorRunning = true) :
    (¬ "Done".data <:+: text.data →
      (readTorOutput e text w).hostnameDisplay = w.hostnameDisplay) ∧
    (∀ content a : String, "Done".data <:+: text.data →
      e.openRead (w.hiddenServiceDirInput.text ++ "/hostname") = some content →
      trimmed (readLine content) = a → a ≠ "" →
      (readTorOutput e text w).hostnameDisplay = a ∧
      (stopTor e2 (readTorOutput e text w)).hostnameDisplay = "") ∧
    (e.openRead (w.hiddenServiceDirInput.text ++ "/hostname") = some "abc123.onion\n" →
      e2.openRead (w.hiddenServiceDirInput.text ++ "/hostname") = some "abc123.onion\n" →
      (readTorOutput e "not done yet" w).hostnameDisplay = w.hostnameDisplay ∧
      (readTorOutput e2 "Done." (readTorOutput e "not done yet" w)).hostnameDisplay
        = "abc123.onion" ∧
      (stopTor e3 (readTorOutput e2 "Done." (readTorOutput e "not done yet" w))).hostnameDisplay
        = "") := by
  have hstop : ∀ (e0 : Env) (v : MainWindow), v.isTorRunning = true →
      (stopTor e0 v).hostnameDisplay = "" := by
    intro e0 v hv
    simp [stopTor, hv]
  refine ⟨?_, ?_, ?_⟩
  · intro hno
    have hc : contains text "Done" = false := by
      cases h : contains text "Done"
      · rfl
      · exact absurd ((contains_iff text "Done").mp h) hno
    simp [readTorOutput, hc, append]
  · intro content a hyes hopen hline hne
    have hc : contains text "Done" = true := (contains_iff text "Done").mpr hyes
    have hemp : isEmpty a = false := (isEmpty_eq_false_iff a).mpr hne
    refine ⟨?_, ?_⟩
    · simp [readTorOutput, hc, append, hopen, hline, hemp]
    · exact hstop e2 _ (by rw [readTorOutput_isTorRunning]; exact hrun)
  · intro h1 h2
    have hc1 : contains "not done yet" "Done" = false := by decide
    have hc2 : contains "Done." "Done" = true := by decide
    have hl : trimmed (readLine "abc123.onion\n") = "abc123.onion" := by decide
    have he : isEmpty "abc123.onion" = false := by decide
    refine ⟨?_, ?_, ?_⟩
    · simp [readTorOutput, hc1, append]
    · simp [readTorOutput, hc1, hc2, append, h2, hl, he]
    · exact hstop e3 _ (by rw [readTorOutput_isTorRunning, readTorOutput_isTorRunning]; exact hrun)

/-- Witness of C2 on the running sample window. -/
theorem readTorOutput_address_witness :
    runningWindow.isTorRunning = true ∧
    (readTorOutput sampleEnv "not done yet" runningWindow).hostnameDisplay = "" ∧
    (readTorOutput sampleEnv "Done."
      (readTorOutput sampleEnv "not done yet" runningWindow)).hostnameDisplay = "abc123.onion" ∧
    (stopTor sampleEnv (readTorOutput sampleEnv "Done."
      (readTorOutput sampleEnv "not done yet" runningWindow))).hostnameDisplay = "" :=
  ⟨by decide,
    (readTorOutput_address sampleEnv sampleEnv sampleEnv runningWindow "Done."
      (by decide)).2.2 (by decide) (by decide)⟩

/-- C3: `validateInputs` returns false exactly when one of the three field texts is
empty, and in a stopped window with an empty field `toggleServer` makes no call on the
child process, writes no file and leaves the running flag false. -/
theorem toggleServer_empty_field (e : Env) (w : MainWindow)
    (hstop : w.isTorRunning = false) :
    ((validateInputs w).1 = false ↔
      (w.socksPortInput.text = "" ∨ w.hiddenServiceDirInput.text = "" ∨
        w.hiddenServicePortInput.text = "")) ∧
    ((w.socksPortInput.text = "" ∨ w.hiddenServiceDirInput.text = "" ∨
        w.hiddenServicePortInput.text = "") →
      (toggleServer e w).torProcess = w.torProcess ∧
      (toggleServer e w).fileEffects = w.fileEffects ∧
      (toggleServer e w).isTorRunning = false) := by
  have hiff : (validateInputs w).1 = false ↔
      (w.socksPortInput.text = "" ∨ w.hiddenServiceDirInput.text = "" ∨
        w.hiddenServicePortInput.text = "") := by
    rw [← isEmpty_iff, ← isEmpty_iff, ← isEmpty_iff]
    unfold validateInputs
    cases isEmpty w.socksPortInput.text <;> cases isEmpty w.hiddenServiceDirInput.text <;>
      cases isEmpty w.hiddenServicePortInput.text <;> simp
  refine ⟨hiff, ?_⟩
  intro hempty
  have hv : (validateInputs w).1 = false := hiff.mpr hempty
  have hw : (validateInputs w).2.torProcess = w.torProcess ∧
      (validateInputs w).2.fileEffects = w.fileEffects ∧
      (validateInputs w).2.isTorRunning = w.isTorRunning := by
    unfold validateInputs
    split
    · exact ⟨rfl, rfl, rfl⟩
    · split
      · exact ⟨rfl, rfl, rfl⟩
      · split <;> exact ⟨rfl, rfl, rfl⟩
  simp only [toggleServer, hstop, hv, Bool.false_eq_true, if_false]
  exact ⟨hw.1, hw.2.1, hw.2.2.trans hstop⟩

/-- Witness of C3: the constructed window with the port-mapping field emptied. -/
theorem toggleServer_empty_field_witness :
    (editHiddenServicePort "" sampleWindow).isTorRunning = false ∧
    (validateInputs (editHiddenServicePort "" sampleWindow)).1 = false ∧
    (toggleServer sampleEnv (editHiddenServicePort "" sampleWindow)).torProcess = [] ∧
    (toggleServer sampleEnv (editHiddenServicePort "" sampleWindow)).fileEffects = [] ∧
    (toggleServer sampleEnv (editHiddenServicePort "" sampleWindow)).isTorRunning = false :=
  ⟨by decide,
    (toggleServer_empty_field sampleEnv (editHiddenServicePort "" sampleWindow)
      (by decide)).1.mpr (Or.inr (Or.inr (by decide))),
    (toggleServer_empty_field sampleEnv (editHiddenServicePort "" sampleWindow)
      (by decide)).2 (Or.inr (Or.inr (by decide)))⟩

/-- C4: in a stopped window, when `<cwd>/tor/tor.exe` does not exist, `startTor` appends
one log entry, which starts with `[ERROR]`, raises one critical message box and changes
nothing else: the running flag stays false, no file is written and no call is made on
the child process. -/
theorem startTor_missing_executable (e : Env) (w : MainWindow)
    (hstop : w.isTorRunning = false)
    (hexe : e.fileExists (e.currentPath ++ "/tor/tor.exe") = false) :
    startTor e w =
      { w with
        logView := w.logView ++
          ["[ERROR] Tor executable not found at: " ++ (e.currentPath ++ "/tor/tor.exe")]
        messageBoxes := w.messageBoxes ++
          [MessageBox.mk Icon.Critical "Error" "Tor executable not found!"] } ∧
    (startTor e w).isTorRunning = false ∧
    (∃ line : String, (startTor e w).logView = w.logView ++ [line] ∧
      "[ERROR]".data <+: line.data) ∧
    (∃ box : MessageBox, (startTor e w).messageBoxes = w.messageBoxes ++ [box] ∧
      box.icon = Icon.Critical) ∧
    (startTor e w).fileEffects = w.fileEffects ∧
    (startTor e w).torProcess = w.torProcess := by
  have key : startTor e w =
      { w with
        logView := w.logView ++
          ["[ERROR] Tor executable not found at: " ++ (e.currentPath ++ "/tor/tor.exe")]
        messageBoxes := w.messageBoxes ++
          [MessageBox.mk Icon.Critical "Error" "Tor executable not found!"] } := by
    simp [startTor, hexe, critical, append]
  refine ⟨key, ?_, ?_, ?_, ?_, ?_⟩
  · rw [key]
    exact hstop
  · rw [key]
    refine ⟨_, rfl, ?_⟩
    exact ⟨(" Tor executable not found at: " ++ (e.currentPath ++ "/tor/tor.exe")).data, rfl⟩
  · rw [key]
    exact ⟨_, rfl, rfl⟩
  · rw [key]
  · rw [key]

/-- Witness of C4: the sample window where no file exists. -/
theorem startTor_missing_executable_witness :
    sampleWindow.isTorRunning = false ∧
    bareEnv.fileExists (bareEnv.currentPath ++ "/tor/tor.exe") = false ∧
    (startTor bareEnv sampleWindow).logView =
      ["[ERROR] Tor executable not found at: C:/NotTorBrowser/tor/tor.exe"] ∧
    (startTor bareEnv sampleWindow).isTorRunning = false ∧
    (startTor bareEnv sampleWindow).fileEffects = [] ∧
    (startTor bareEnv sampleWindow).torProcess = [] :=
  ⟨by decide, rfl,
    congrArg MainWindow.logView
      (startTor_missing_executable bareEnv sampleWindow (by decide) rfl).1,
    by decide, by decide, by decide⟩

/-- C5: `stopTor`, and `closeEvent` which only calls it, return a window whose running
flag is off unchanged, log included; for every window, closing twice gives the same
window and the same log as closing once, and the two closes together append at most one
`Stopping Tor...` entry to the log. -/
theorem closeEvent_idempotent (e1 e2 : Env) (w : MainWindow) :
    (w.isTorRunning = false → stopTor e1 w = w ∧ closeEvent e1 w = w) ∧
    closeEvent e2 (closeEvent e1 w) = closeEvent e1 w ∧
    (∃ added : List String,
      (closeEvent e2 (closeEvent e1 w)).logView = w.logView ++ added ∧
      added.countP isStoppingEntry ≤ 1) := by
  have hidem : closeEvent e2 (closeEvent e1 w) = closeEvent e1 w :=
    stopTor_of_stopped e2 _ (stopTor_isTorRunning e1 w)
  refine ⟨fun h => ⟨stopTor_of_stopped e1 w h, stopTor_of_stopped e1 w h⟩, hidem, ?_⟩
  rw [hidem]
  unfold closeEvent
  cases hrun : w.isTorRunning
  · exact ⟨[], by rw [stopTor_of_stopped e1 w hrun]; simp, by simp⟩
  · refine ⟨_, stopTor_logView e1 w hrun, ?_⟩
    have hwarn : isStoppingEntry "[WARNING] Tor process was forcibly killed" = false := by decide
    have hstopped := isStoppingEntry_stopped ("[" ++ e1.currentDateTime)
    cases e1.waitForFinished <;>
      simp [List.countP_cons, hwarn, hstopped] <;>
      split <;> simp

/-- Witness of C5: the stopped sample window, closed. -/
theorem closeEvent_idempotent_witness :
    sampleWindow.isTorRunning = false ∧
    stopTor sampleEnv sampleWindow = sampleWindow ∧
    closeEvent sampleEnv sampleWindow = sampleWindow :=
  ⟨by decide, (closeEvent_idempotent sampleEnv sampleEnv sampleWindow).1 (by decide)⟩

/-- C6: for every window, exit code and exit status, `handleTorFinished` turns the running
flag off and appends exactly one log entry, `[ERROR] Tor process crashed!` for a crash and
`[INFO] Tor process exited with code <exitCode>` otherwise; nothing of what `stopTor` does
happens: no call on the child process, no file removed, the address left as it was. -/
theorem handleTorFinished_log (exitCode : Int) (exitStatus : ExitStatus) (w : MainWindow) :
    (handleTorFinished exitCode exitStatus w).isTorRunning = false ∧
    (handleTorFinished exitCode ExitStatus.CrashExit w).logView =
      w.logView ++ ["[ERROR] Tor process crashed!"] ∧
    (handleTorFinished exitCode ExitStatus.NormalExit w).logView =
      w.logView ++ ["[INFO] Tor process exited with code " ++ toString exitCode] ∧
    (handleTorFinished 1 ExitStatus.NormalExit w).logView =
      w.logView ++ ["[INFO] Tor process exited with code 1"] ∧
    (handleTorFinished (-1073741510) ExitStatus.NormalExit w).logView =
      w.logView ++ ["[INFO] Tor process exited with code -1073741510"] ∧
    (handleTorFinished exitCode exitStatus w).torProcess = w.torProcess ∧
    (handleTorFinished exitCode exitStatus w).fileEffects = w.fileEffects ∧
    (handleTorFinished exitCode exitStatus w).messageBoxes = w.messageBoxes ∧
    (handleTorFinished exitCode exitStatus w).hostnameDisplay = w.hostnameDisplay := by
  have h1 : toString (1 : Int) = "1" := by decide
  have h2 : toString (-1073741510 : Int) = "-1073741510" := by decide
  refine ⟨?_, ?_, ?_, ?_, ?_, ?_, ?_, ?_, ?_⟩
  · simp [handleTorFinished, updateUI_isTorRunning]
  · simp [handleTorFinished, updateUI, append]
  · simp [handleTorFinished, updateUI, append]
  · simp only [handleTorFinished, updateUI, append, h1]
    rfl
  · simp only [handleTorFinished, updateUI, append, h2]
    rfl
  all_goals cases exitStatus <;> simp [handleTorFinished, updateUI, append]

/-- C7: in every window reachable from the constructed one by `toggleServer`, `stopTor`,
`readTorOutput`, `handleTorFinished`, `closeEvent` and edits of the fields, each of the
three configuration fields is enabled exactly when the running flag is off; a `startTor`
that gets the process started turns the flag on and disables the three fields; `stopTor`
on a running window and `handleTorFinished` turn it off and enable them. -/
theorem fields_enabled_iff_stopped :
    (∀ w : MainWindow, Reachable w →
      ((w.socksPortInput.enabled = true ∧ w.hiddenServiceDirInput.enabled = true ∧
          w.hiddenServicePortInput.enabled = true) ↔ w.isTorRunning = false) ∧
      ((w.socksPortInput.enabled = false ∧ w.hiddenServiceDirInput.enabled = false ∧
          w.hiddenServicePortInput.enabled = false) ↔ w.isTorRunning = true)) ∧
    (∀ (e : Env) (w : MainWindow),
      e.fileExists (e.currentPath ++ "/tor/tor.exe") = true →
      e.openWrite (e.currentPath ++ "/torrc.txt") = true →
      e.waitForStarted = true →
      (startTor e w).isTorRunning = true ∧
      (startTor e w).socksPortInput.enabled = false ∧
      (startTor e w).hiddenServiceDirInput.enabled = false ∧
      (startTor e w).hiddenServicePortInput.enabled = false) ∧
    (∀ (e : Env) (w : MainWindow), w.isTorRunning = true →
      (stopTor e w).isTorRunning = false ∧
      (stopTor e w).socksPortInput.enabled = true ∧
      (stopTor e w).hiddenServiceDirInput.enabled = true ∧
      (stopTor e w).hiddenServicePortInput.enabled = true) ∧
    (∀ (exitCode : Int) (exitStatus : ExitStatus) (w : MainWindow),
      (handleTorFinished exitCode exitStatus w).isTorRunning = false ∧
      (handleTorFinished exitCode exitStatus w).socksPortInput.enabled = true ∧
      (handleTorFinished exitCode exitStatus w).hiddenServiceDirInput.enabled = true ∧
      (handleTorFinished exitCode exitStatus w).hiddenServicePortInput.enabled = true) := by
  refine ⟨?_, ?_, ?_, ?_⟩
  · intro w hw
    have hinv : FieldsFollowFlag w := by
      induction hw with
      | init appData => exact ⟨rfl, rfl, rfl⟩
      | step e ev w _ ih => exact step_follows e ev w ih
    obtain ⟨h1, h2, h3⟩ := hinv
    rw [h1, h2, h3]
    cases w.isTorRunning <;> simp
  · intro e w hexe hopen hstart
    simp [startTor, hexe, hopen, hstart, updateUI, append]
  · intro e w hrun
    unfold stopTor
    cases hw : e.waitForFinished <;> simp [hrun, append, updateUI]
  · intro exitCode exitStatus w
    have hf := handleTorFinished_follows exitCode exitStatus w
    have hr : (handleTorFinished exitCode exitStatus w).isTorRunning = false := by
      simp [handleTorFinished, updateUI_isTorRunning]
    obtain ⟨h1, h2, h3⟩ := hf
    rw [hr] at h1 h2 h3
    exact ⟨hr, h1, h2, h3⟩

/-- Witness of C7: the sample window after a start, and after a start and a stop. -/
theorem fields_enabled_iff_stopped_witness :
    Reachable (step sampleEnv Event.toggleServer sampleWindow) ∧
    (step sampleEnv Event.toggleServer sampleWindow).isTorRunning = true ∧
    (step sampleEnv Event.toggleServer sampleWindow).socksPortInput.enabled = false ∧
    (step sampleEnv Event.toggleServer sampleWindow).hiddenServiceDirInput.enabled = false ∧
    (step sampleEnv Event.toggleServer sampleWindow).hiddenServicePortInput.enabled = false :=
  have hreach : Reachable (step sampleEnv Event.toggleServer sampleWindow) :=
    Reachable.step sampleEnv Event.toggleServer _
      (Reachable.step sampleEnv (Event.editHiddenServiceDir "/tmp/hs") _
        (Reachable.init "C:/Users/u/AppData/Roaming/NotTorBrowser"))
  have hrun : (step sampleEnv Event.toggleServer sampleWindow).isTorRunning = true := by decide
  ⟨hreach, hrun, ((fields_enabled_iff_stopped.1 _ hreach).2).mpr hrun⟩

/-- C8: the address is not cleared when the session ends through `handleTorFinished`.  The
window that shows `abc123.onion` while running is reachable; after the process exits on
its own, normally or by a crash, the running flag is off and the address is still
`abc123.onion`, in a reachable window, whereas `stopTor` on the same window empties it. -/
theorem handleTorFinished_keeps_address :
    Reachable addressWindow ∧
    addressWindow.isTorRunning = true ∧
    addressWindow.hostnameDisplay = "abc123.onion" ∧
    Reachable (handleTorFinished 0 ExitStatus.NormalExit addressWindow) ∧
    (handleTorFinished 0 ExitStatus.NormalExit addressWindow).isTorRunning = false ∧
    (handleTorFinished 0 ExitStatus.NormalExit addressWindow).hostnameDisplay = "abc123.onion" ∧
    (handleTorFinished 1 ExitStatus.CrashExit addressWindow).isTorRunning = false ∧
    (handleTorFinished 1 ExitStatus.CrashExit addressWindow).hostnameDisplay = "abc123.onion" ∧
    (stopTor sampleEnv addressWindow).isTorRunning = false ∧
    (stopTor sampleEnv addressWindow).hostnameDisplay = "" := by
  have hreach : Reachable addressWindow :=
    Reachable.step sampleEnv (Event.readTorOutput "Done.") _
      (Reachable.step sampleEnv Event.toggleServer _
        (Reachable.step sampleEnv (Event.editHiddenServiceDir "/tmp/hs") _
          (Reachable.init "C:/Users/u/AppData/Roaming/NotTorBrowser")))
  refine ⟨hreach, by decide, by decide, ?_, by decide, by decide, by decide, by decide,
    by decide, by decide⟩
  exact Reachable.step sampleEnv (Event.handleTorFinished 0 ExitStatus.NormalExit) _ hreach

/-- C9: the port written is not confined to 1024-65535.  The validator installed on the
port field calls the text `80` intermediate, so the field takes it; `validateInputs`
passes, and `toggleServer` writes `SocksPort 80` to the configuration file, a decimal
integer below 1024. -/
theorem socksPort_below_range :
    QIntValidator.validate 1024 65535 "80" = ValidatorState.Intermediate ∧
    Reachable lowPortWindow ∧
    lowPortWindow.socksPortInput.text = "80" ∧
    (validateInputs lowPortWindow).1 = true ∧
    (toggleServer sampleEnv lowPortWindow).isTorRunning = true ∧
    (toggleServer sampleEnv lowPortWindow).fileEffects =
      [FileEffect.write "C:/NotTorBrowser/torrc.txt"
        "SocksPort 80\nLog notice stdout\nAvoidDiskWrites 1\nHiddenServiceDir /tmp/hs\nHiddenServicePort 80 127.0.0.1:5000\n"] ∧
    digitsValue lowPortWindow.socksPortInput.text.data = 80 ∧
    digitsValue lowPortWindow.socksPortInput.text.data < 1024 := by
  refine ⟨by decide, ?_, by decide, by decide, by decide, by decide, by decide, by decide⟩
  exact Reachable.step sampleEnv (Event.editSocksPort "80") _
    (Reachable.step sampleEnv (Event.editHiddenServiceDir "/tmp/hs") _
      (Reachable.init "C:/Users/u/AppData/Roaming/NotTorBrowser"))

/-- C10: the entry that follows the `Starting Tor...` line does not echo the file.  On the
sample window `startTor` writes the five directives to the configuration file and appends
two log entries, the timestamped `Starting Tor...` line and the entry
`Config file content:` followed by a line feed and nothing else: `readAll` is called on
the file after `close`, and gives no data.  The entry does not contain the text written. -/
theorem startTor_echo_empty :
    (startTor sampleEnv sampleWindow).fileEffects =
      [FileEffect.write "C:/NotTorBrowser/torrc.txt"
        "SocksPort 9050\nLog notice stdout\nAvoidDiskWrites 1\nHiddenServiceDir /tmp/hs\nHiddenServicePort 80 127.0.0.1:5000\n"] ∧
    (startTor sampleEnv sampleWindow).logView =
      ["[Fri Oct 30 05:12:00 2026] Starting Tor...", "Config file content:\n"] ∧
    contains "Config file content:\n"
      "SocksPort 9050\nLog notice stdout\nAvoidDiskWrites 1\nHiddenServiceDir /tmp/hs\nHiddenServicePort 80 127.0.0.1:5000\n"
      = false ∧
    contains "Config file content:\n" "SocksPort" = false := by
  refine ⟨by decide, by decide, by decide, by decide⟩

end NotTorBrowser
